import Mathlib

/-!
Verification development for the Gemini Flash API gateway (index.js).

The server is a straight-line Express application.  Each POST handler is
embedded as a pure function from the parsed request (and the outcome of the
external model invocation, supplied as a parameter of type
`Except String String`) to the ordered list of observable effects the handler
performs: file reads, file deletions (`fs.unlink`), model invocations, and
the single HTTP response.  Asynchronous `fs.unlink(path, cb)` calls are
recorded at the point the deletion is issued, which in the source is always
before the response is sent.
-/

namespace GeminiServer

/-- A value a JSON request-body field can hold, as seen by the text handler
when it destructures `req.body.prompt`.  `none` at the use sites models an
absent field. -/
inductive JsValue where
  | str (s : String)
  | num (n : Int)
  | boolean (b : Bool)
  | null
  deriving DecidableEq

/-- Whether the JavaScript typeof operator reports the value as a string. -/
def JsValue.isStr : JsValue → Bool
  | .str _ => true
  | _ => false

/-- A file staged by multer (`upload.single(...)`): its unique path under
`uploads/`, the declared MIME type, the original client-side name, and the
staged bytes (each a value 0..255). -/
structure UploadedFile where
  path : String
  mimetype : String
  originalname : String
  bytes : List Nat
  deriving DecidableEq

/-- A multipart request to one of the file endpoints: the optional staged
file (`req.file`) and the optional `prompt` text field (`req.body.prompt`,
always a string when present in a multipart body). -/
structure FileRequest where
  file : Option UploadedFile
  prompt : Option String
  deriving DecidableEq

/-- One part of a generative request, mirroring the objects built in the
handlers: a text part or an inline-data part. -/
inductive Part where
  | text (s : String)
  | inlineData (data : String) (mimeType : String)
  deriving DecidableEq

/-- The payload handed to `model.generateContent`: the text handler passes a
bare string, the file handlers pass `{contents: [{parts}]}`. -/
inductive ModelPayload where
  | plain (prompt : String)
  | withParts (parts : List Part)
  deriving DecidableEq

/-- An observable effect performed by a handler, in program order. -/
inductive Event where
  | readFile (path : String)
  | unlink (path : String)
  | invokeModel (payload : ModelPayload)
  | respond (status : Nat) (body : List (String × String))
  deriving DecidableEq

/-- The base64 alphabet used by `Buffer.toString` with encoding base64. -/
def base64Alphabet : List Char :=
  ['A', 'B', 'C', 'D', 'E', 'F', 'G', 'H', 'I', 'J', 'K', 'L', 'M',
   'N', 'O', 'P', 'Q', 'R', 'S', 'T', 'U', 'V', 'W', 'X', 'Y', 'Z',
   'a', 'b', 'c', 'd', 'e', 'f', 'g', 'h', 'i', 'j', 'k', 'l', 'm',
   'n', 'o', 'p', 'q', 'r', 's', 't', 'u', 'v', 'w', 'x', 'y', 'z',
   '0', '1', '2', '3', '4', '5', '6', '7', '8', '9', '+', '/']

/-- The base64 digit for a 6-bit value. -/
def b64c (n : Nat) : Char := base64Alphabet.getD n 'A'

/-- Standard padded base64 of a byte list, as produced by
`Buffer.from(data).toString` with base64 encoding.  Bytes are reduced mod 256. -/
def base64Encode : List Nat → List Char
  | [] => []
  | [a] =>
      [b64c (a % 256 / 4), b64c (a % 256 % 4 * 16), '=', '=']
  | [a, b] =>
      [b64c (a % 256 / 4), b64c (a % 256 % 4 * 16 + b % 256 / 16),
       b64c (b % 256 % 16 * 4), '=']
  | a :: b :: c :: rest =>
      b64c (a % 256 / 4) :: b64c (a % 256 % 4 * 16 + b % 256 / 16) ::
      b64c (b % 256 % 16 * 4 + c % 256 / 64) :: b64c (c % 256 % 64) ::
      base64Encode rest

/-- Embedding of `fileToGenerativePart(filePath, mimeType)`: base64-encode
the staged bytes and wrap them with the declared MIME type.  The file read
it performs is recorded as a `readFile` event by the calling handler. -/
def fileToGenerativePart (f : UploadedFile) : Part :=
  Part.inlineData (String.mk (base64Encode f.bytes)) f.mimetype

/-- Embedding of the JavaScript idiom `req.body.prompt || defaultPrompt`:
an absent field and the (falsy) empty string both yield the default. -/
def orDefault (p : Option String) (d : String) : String :=
  match p with
  | none => d
  | some s => if s == "" then d else s

/-- Whitespace removal from both ends of a character list. -/
def trimChars (l : List Char) : List Char :=
  ((l.dropWhile Char.isWhitespace).reverse.dropWhile Char.isWhitespace).reverse

/-- Embedding of `prompt.trim()`: remove leading and trailing whitespace. -/
def strTrim (s : String) : String := String.mk (trimChars s.toList)

/-- Error message of the text-endpoint 400 response. -/
def promptRequiredMsg : String :=
  "Prompt teks diperlukan dan harus berupa string non-kosong."

/-- Handler of POST /generate-text.  The source guard rejects a prompt that
is falsy, not of string type, or trims to the empty string: a request
passes exactly when the field is a string whose trim is non-empty. -/
def generateText (modelResult : Except String String)
    (prompt : Option JsValue) : List Event :=
  match prompt with
  | some (JsValue.str s) =>
      if strTrim s == "" then
        [Event.respond 400 [("error", promptRequiredMsg)]]
      else
        match modelResult with
        | Except.ok t =>
            [Event.invokeModel (ModelPayload.plain s),
             Event.respond 200 [("output", t)]]
        | Except.error m =>
            [Event.invokeModel (ModelPayload.plain s),
             Event.respond 500
               [("error", "Gagal menghasilkan teks dari Gemini."),
                ("details", m),
                ("tip", "Pastikan API Key Gemini Anda valid dan service Gemini sedang tidak mengalami gangguan. Periksa juga log server untuk detail lebih lanjut.")]]
  | _ => [Event.respond 400 [("error", promptRequiredMsg)]]

/-- The image-endpoint MIME allow-list, verbatim from the source. -/
def allowedImageMimeTypes : List String :=
  ["image/jpeg", "image/png", "image/gif", "image/webp"]

/-- Error message sent when the image endpoint rejects a MIME type. -/
def imageMimeRejectMsg (mimeType : String) : String :=
  "Tipe file " ++ mimeType ++
  " tidak didukung. Hanya JPEG, PNG, GIF, WebP yang diizinkan untuk gambar."

/-- Default instruction of the image endpoint. -/
def imageDefaultPrompt : String := "Describe the image in detail."

/-- Handler of POST /generate-from-image. -/
def generateFromImage (modelResult : Except String String)
    (req : FileRequest) : List Event :=
  match req.file with
  | none => [Event.respond 400 [("error", "File gambar diperlukan.")]]
  | some f =>
      if !(allowedImageMimeTypes.contains f.mimetype) then
        [Event.unlink f.path,
         Event.respond 400 [("error", imageMimeRejectMsg f.mimetype)]]
      else
        let prompt := orDefault req.prompt imageDefaultPrompt
        let parts := [Part.text prompt, fileToGenerativePart f]
        Event.readFile f.path ::
          match modelResult with
          | Except.ok t =>
              [Event.invokeModel (ModelPayload.withParts parts),
               Event.respond 200 [("output", t)]]
          | Except.error m =>
              [Event.invokeModel (ModelPayload.withParts parts),
               Event.respond 500
                 [("error", "Gagal menghasilkan deskripsi dari gambar."),
                  ("details", m),
                  ("tip", "Pastikan file yang diunggah adalah gambar yang valid dan API Key Gemini Anda berfungsi. Periksa juga log server.")]]

/-- The document-endpoint MIME allow-list, verbatim from the source. -/
def allowedDocMimeTypes : List String :=
  ["application/pdf",
   "text/plain",
   "application/vnd.openxmlformats-officedocument.wordprocessingml.document",
   "application/vnd.openxmlformats-officedocument.spreadsheetml.sheet",
   "application/vnd.openxmlformats-officedocument.presentationml.presentation"]

/-- Error message sent when the document endpoint rejects a MIME type. -/
def docMimeRejectMsg (mimeType : String) : String :=
  "Tipe file " ++ mimeType ++
  " tidak didukung. Dokumen yang diizinkan: PDF, TXT, DOCX, XLSX, PPTX."

/-- Default instruction of the document endpoint. -/
def docDefaultPrompt : String :=
  "Analyze this document and summarize its key points:"

/-- Handler of POST /generate-from-document.  It reads the file with
`fs.promises.readFile` and builds the inline part in place; the resulting
events coincide with those of `fileToGenerativePart`. -/
def generateFromDocument (modelResult : Except String String)
    (req : FileRequest) : List Event :=
  match req.file with
  | none => [Event.respond 400 [("error", "File dokumen diperlukan.")]]
  | some f =>
      if !(allowedDocMimeTypes.contains f.mimetype) then
        [Event.unlink f.path,
         Event.respond 400 [("error", docMimeRejectMsg f.mimetype)]]
      else
        let prompt := orDefault req.prompt docDefaultPrompt
        let documentPart :=
          Part.inlineData (String.mk (base64Encode f.bytes)) f.mimetype
        let parts := [Part.text prompt, documentPart]
        Event.readFile f.path ::
          match modelResult with
          | Except.ok t =>
              [Event.invokeModel (ModelPayload.withParts parts),
               Event.respond 200 [("output", t)]]
          | Except.error m =>
              [Event.invokeModel (ModelPayload.withParts parts),
               Event.respond 500
                 [("error", "Gagal memproses dokumen dengan Gemini."),
                  ("details", m),
                  ("tip", "Pastikan file yang diunggah adalah dokumen yang valid dan API Key Gemini Anda berfungsi. Periksa juga log server.")]]

/-- The audio-endpoint MIME allow-list, verbatim from the source. -/
def allowedAudioMimeTypes : List String :=
  ["audio/mpeg", "audio/wav", "audio/mp3", "audio/x-m4a"]

/-- Error message sent when the audio endpoint rejects a MIME type. -/
def audioMimeRejectMsg (mimeType : String) : String :=
  "Tipe file " ++ mimeType ++
  " tidak didukung. Hanya MP3, WAV, M4A yang diizinkan untuk audio."

/-- Default instruction of the audio endpoint. -/
def audioDefaultPrompt : String := "Transcribe the following audio:"

/-- Handler of POST /generate-from-audio. -/
def generateFromAudio (modelResult : Except String String)
    (req : FileRequest) : List Event :=
  match req.file with
  | none => [Event.respond 400 [("error", "File audio diperlukan.")]]
  | some f =>
      if !(allowedAudioMimeTypes.contains f.mimetype) then
        [Event.unlink f.path,
         Event.respond 400 [("error", audioMimeRejectMsg f.mimetype)]]
      else
        let prompt := orDefault req.prompt audioDefaultPrompt
        let audioPart :=
          Part.inlineData (String.mk (base64Encode f.bytes)) f.mimetype
        let parts := [Part.text prompt, audioPart]
        Event.readFile f.path ::
          match modelResult with
          | Except.ok t =>
              [Event.invokeModel (ModelPayload.withParts parts),
               Event.respond 200 [("output", t)]]
          | Except.error m =>
              [Event.invokeModel (ModelPayload.withParts parts),
               Event.respond 500
                 [("error", "Gagal memproses audio dengan Gemini."),
                  ("details", m),
                  ("tip", "Pastikan file audio berukuran/durasi sesuai batasan Gemini (maks 2 menit untuk Flash) dan API Key Anda valid. Periksa juga log server.")]]

/-- Whether an event is a model invocation. -/
def Event.isModelCall : Event → Bool
  | Event.invokeModel _ => true
  | _ => false

/-- Number of model invocations in a trace. -/
def modelCallCount (t : List Event) : Nat := (t.filter Event.isModelCall).length

/-- The payloads of the model invocations in a trace, in order. -/
def modelPayloads (t : List Event) : List ModelPayload :=
  t.filterMap fun e =>
    match e with
    | Event.invokeModel p => some p
    | _ => none

/-- The (status, body) pairs of the responses in a trace, in order.  Every
handler trace contains exactly one. -/
def responses (t : List Event) : List (Nat × List (String × String)) :=
  t.filterMap fun e =>
    match e with
    | Event.respond s b => some (s, b)
    | _ => none

/-- The paths deleted in a trace, in order. -/
def deletedPaths (t : List Event) : List String :=
  t.filterMap fun e =>
    match e with
    | Event.unlink p => some p
    | _ => none

/-- Value of a key in a JSON response body. -/
def bodyLookup (body : List (String × String)) (k : String) : Option String :=
  match body.find? (fun kv => kv.fst == k) with
  | some kv => some kv.snd
  | none => none

/-- Whether the character list `pat` occurs as a contiguous run of `l`. -/
def hasInfixB (pat : List Char) : List Char → Bool
  | [] => pat.isEmpty
  | c :: rest => pat.isPrefixOf (c :: rest) || hasInfixB pat rest

/-- Whether `pat` is a substring of `s`. -/
def strContains (s pat : String) : Bool := hasInfixB pat.toList s.toList

/-- Shape of a handler trace whose model invocation threw with message
`msg`: the model was invoked exactly once and the lone response is a 500
whose body has an error key, a details key equal to the thrown message, and
a tip key. -/
def serverError (t : List Event) (msg : String) : Prop :=
  modelCallCount t = 1 ∧
  ∃ body, responses t = [(500, body)] ∧
    (bodyLookup body "error").isSome = true ∧
    bodyLookup body "details" = some msg ∧
    (bodyLookup body "tip").isSome = true

/-- C2: a POST /generate-text request whose prompt field is absent, not a
string, empty, or whitespace-only receives HTTP 400 and the provider is
never invoked. -/
theorem C2_text_prompt_validation (mr : Except String String)
    (p : Option JsValue)
    (h : p = none ∨ (∃ v, p = some v ∧ v.isStr = false) ∨
         (∃ s, p = some (JsValue.str s) ∧ strTrim s = "")) :
    generateText mr p = [Event.respond 400 [("error", promptRequiredMsg)]] ∧
    modelCallCount (generateText mr p) = 0 := by
  have hbody : generateText mr p =
      [Event.respond 400 [("error", promptRequiredMsg)]] := by
    rcases h with h | ⟨v, hv, hs⟩ | ⟨s, hs, ht⟩
    · subst h; rfl
    · subst hv
      cases v with
      | str s => simp [JsValue.isStr] at hs
      | num n => rfl
      | boolean b => rfl
      | null => rfl
    · subst hs
      simp [generateText, ht]
  exact ⟨hbody, by rw [hbody]; rfl⟩

/-- Witness for C2 at a concrete input: the prompt field is absent. -/
theorem C2_text_prompt_validation_witness :
    generateText (Except.ok "x") none =
      [Event.respond 400 [("error", promptRequiredMsg)]] ∧
    modelCallCount (generateText (Except.ok "x") none) = 0 :=
  C2_text_prompt_validation (Except.ok "x") none (Or.inl rfl)

/-- C9: a POST /generate-text request with a valid prompt whose provider
invocation yields text t receives HTTP 200 with body exactly (output, t). -/
theorem C9_text_success_response (t s : String) (h : strTrim s ≠ "") :
    generateText (Except.ok t) (some (JsValue.str s)) =
      [Event.invokeModel (ModelPayload.plain s),
       Event.respond 200 [("output", t)]] ∧
    responses (generateText (Except.ok t) (some (JsValue.str s))) =
      [(200, [("output", t)])] := by
  have hc : (strTrim s == "") = false := by simp [h]
  constructor
  · simp [generateText, hc]
  · simp [generateText, hc, responses]

/-- Witness for C9 at the concrete scenario of the specification. -/
theorem C9_text_success_response_witness :
    generateText (Except.ok "Hi there") (some (JsValue.str "Hello")) =
      [Event.invokeModel (ModelPayload.plain "Hello"),
       Event.respond 200 [("output", "Hi there")]] ∧
    responses (generateText (Except.ok "Hi there")
        (some (JsValue.str "Hello"))) =
      [(200, [("output", "Hi there")])] :=
  C9_text_success_response "Hi there" "Hello" (by decide)

/-- C10: on every file endpoint, a supplied empty prompt field produces
exactly the same handler behaviour as an absent prompt field, and the
fallback value is the endpoint default. -/
theorem C10_empty_prompt_equals_absent (mr : Except String String)
    (file : Option UploadedFile) :
    (∀ d : String, orDefault (some "") d = d) ∧
    generateFromImage mr { file := file, prompt := some "" } =
      generateFromImage mr { file := file, prompt := none } ∧
    generateFromDocument mr { file := file, prompt := some "" } =
      generateFromDocument mr { file := file, prompt := none } ∧
    generateFromAudio mr { file := file, prompt := some "" } =
      generateFromAudio mr { file := file, prompt := none } := by
  refine ⟨fun d => rfl, ?_, ?_, ?_⟩ <;>
    cases file with
    | none => rfl
    | some f =>
        simp [generateFromImage, generateFromDocument, generateFromAudio,
          orDefault]

/-- C4: on every POST endpoint, a request that reaches the model invocation
and whose invocation throws with message msg receives HTTP 500 with a body
carrying the keys error, details (equal to msg) and tip, and the invocation
is performed exactly once, never retried. -/
theorem C4_model_error_maps_to_500 (msg : String) :
    (∀ p, 1 ≤ modelCallCount (generateText (Except.error msg) p) →
      serverError (generateText (Except.error msg) p) msg) ∧
    (∀ req, 1 ≤ modelCallCount (generateFromImage (Except.error msg) req) →
      serverError (generateFromImage (Except.error msg) req) msg) ∧
    (∀ req, 1 ≤ modelCallCount (generateFromDocument (Except.error msg) req) →
      serverError (generateFromDocument (Except.error msg) req) msg) ∧
    (∀ req, 1 ≤ modelCallCount (generateFromAudio (Except.error msg) req) →
      serverError (generateFromAudio (Except.error msg) req) msg) := by
  refine ⟨?_, ?_, ?_, ?_⟩
  · intro p h
    cases p with
    | none => simp [generateText, modelCallCount, Event.isModelCall] at h
    | some v =>
        cases v with
        | str s =>
            cases ht : (strTrim s == "") with
            | true =>
                simp [generateText, ht, modelCallCount, Event.isModelCall] at h
            | false =>
                simp only [generateText, ht, Bool.false_eq_true, if_false]
                exact ⟨rfl, _, rfl, rfl, rfl, rfl⟩
        | num n => simp [generateText, modelCallCount, Event.isModelCall] at h
        | boolean b =>
            simp [generateText, modelCallCount, Event.isModelCall] at h
        | null => simp [generateText, modelCallCount, Event.isModelCall] at h
  · rintro ⟨file, prompt⟩ h
    cases file with
    | none => simp [generateFromImage, modelCallCount, Event.isModelCall] at h
    | some f =>
        cases hc : allowedImageMimeTypes.contains f.mimetype with
        | false =>
            have hm : f.mimetype ∉ allowedImageMimeTypes := by
              intro hmem
              have hcm : allowedImageMimeTypes.contains f.mimetype = true :=
                List.elem_iff.mpr hmem
              rw [hc] at hcm
              exact Bool.noConfusion hcm
            simp [generateFromImage, hm, modelCallCount,
              Event.isModelCall] at h
        | true =>
            simp only [generateFromImage, hc, Bool.not_true,
              Bool.false_eq_true, if_false]
            exact ⟨rfl, _, rfl, rfl, rfl, rfl⟩
  · rintro ⟨file, prompt⟩ h
    cases file with
    | none =>
        simp [generateFromDocument, modelCallCount, Event.isModelCall] at h
    | some f =>
        cases hc : allowedDocMimeTypes.contains f.mimetype with
        | false =>
            have hm : f.mimetype ∉ allowedDocMimeTypes := by
              intro hmem
              have hcm : allowedDocMimeTypes.contains f.mimetype = true :=
                List.elem_iff.mpr hmem
              rw [hc] at hcm
              exact Bool.noConfusion hcm
            simp [generateFromDocument, hm, modelCallCount,
              Event.isModelCall] at h
        | true =>
            simp only [generateFromDocument, hc, Bool.not_true,
              Bool.false_eq_true, if_false]
            exact ⟨rfl, _, rfl, rfl, rfl, rfl⟩
  · rintro ⟨file, prompt⟩ h
    cases file with
    | none => simp [generateFromAudio, modelCallCount, Event.isModelCall] at h
    | some f =>
        cases hc : allowedAudioMimeTypes.contains f.mimetype with
        | false =>
            have hm : f.mimetype ∉ allowedAudioMimeTypes := by
              intro hmem
              have hcm : allowedAudioMimeTypes.contains f.mimetype = true :=
                List.elem_iff.mpr hmem
              rw [hc] at hcm
              exact Bool.noConfusion hcm
            simp [generateFromAudio, hm, modelCallCount,
              Event.isModelCall] at h
        | true =>
            simp only [generateFromAudio, hc, Bool.not_true,
              Bool.false_eq_true, if_false]
            exact ⟨rfl, _, rfl, rfl, rfl, rfl⟩

/-- Witness for C4: a valid image upload whose model invocation throws. -/
theorem C4_model_error_maps_to_500_witness :
    serverError
      (generateFromImage (Except.error "boom")
        { file := some ⟨"uploads/a1", "image/png", "c.png", []⟩,
          prompt := none }) "boom" :=
  (C4_model_error_maps_to_500 "boom").2.1
    { file := some ⟨"uploads/a1", "image/png", "c.png", []⟩, prompt := none }
    (by decide)

/-- The image allow-list exactly as the specification enumerates it. -/
def specImageAllowList : List String :=
  ["image/jpeg", "image/png", "image/gif", "image/webp"]

/-- The document allow-list exactly as the specification enumerates it. -/
def specDocAllowList : List String :=
  ["application/pdf",
   "text/plain",
   "application/vnd.openxmlformats-officedocument.wordprocessingml.document",
   "application/vnd.openxmlformats-officedocument.spreadsheetml.sheet",
   "application/vnd.openxmlformats-officedocument.presentationml.presentation"]

/-- The audio allow-list exactly as the specification enumerates it. -/
def specAudioAllowList : List String :=
  ["audio/mpeg", "audio/wav", "audio/mp3", "audio/x-m4a"]

/-- C5: each endpoint allow-list is exactly the set the specification names,
and for every staged file the model is invoked exactly when the declared
MIME type belongs to that set; outside it the request draws a 400. -/
theorem C5_allowlists_match_spec :
    (∀ m, m ∈ allowedImageMimeTypes ↔ m ∈ specImageAllowList) ∧
    (∀ m, m ∈ allowedDocMimeTypes ↔ m ∈ specDocAllowList) ∧
    (∀ m, m ∈ allowedAudioMimeTypes ↔ m ∈ specAudioAllowList) ∧
    (∀ mr p f,
      (f.mimetype ∈ specImageAllowList ↔
        modelCallCount
          (generateFromImage mr { file := some f, prompt := p }) = 1) ∧
      (f.mimetype ∉ specImageAllowList →
        ∃ b, responses
          (generateFromImage mr { file := some f, prompt := p }) =
            [(400, b)])) ∧
    (∀ mr p f,
      (f.mimetype ∈ specDocAllowList ↔
        modelCallCount
          (generateFromDocument mr { file := some f, prompt := p }) = 1) ∧
      (f.mimetype ∉ specDocAllowList →
        ∃ b, responses
          (generateFromDocument mr { file := some f, prompt := p }) =
            [(400, b)])) ∧
    (∀ mr p f,
      (f.mimetype ∈ specAudioAllowList ↔
        modelCallCount
          (generateFromAudio mr { file := some f, prompt := p }) = 1) ∧
      (f.mimetype ∉ specAudioAllowList →
        ∃ b, responses
          (generateFromAudio mr { file := some f, prompt := p }) =
            [(400, b)])) := by
  refine ⟨fun m => Iff.rfl, fun m => Iff.rfl, fun m => Iff.rfl, ?_, ?_, ?_⟩
  · intro mr p f
    constructor
    · constructor
      · intro hm
        have hc : allowedImageMimeTypes.contains f.mimetype = true :=
          List.elem_iff.mpr hm
        cases mr <;>
          (simp only [generateFromImage, hc, Bool.not_true,
            Bool.false_eq_true, if_false]; rfl)
      · intro h
        by_contra hm
        have hmc : f.mimetype ∉ allowedImageMimeTypes := hm
        simp [generateFromImage, hmc, modelCallCount, Event.isModelCall] at h
    · intro hm
      have hmc : f.mimetype ∉ allowedImageMimeTypes := hm
      refine ⟨[("error", imageMimeRejectMsg f.mimetype)], ?_⟩
      simp [generateFromImage, hmc, responses]
  · intro mr p f
    constructor
    · constructor
      · intro hm
        have hc : allowedDocMimeTypes.contains f.mimetype = true :=
          List.elem_iff.mpr hm
        cases mr <;>
          (simp only [generateFromDocument, hc, Bool.not_true,
            Bool.false_eq_true, if_false]; rfl)
      · intro h
        by_contra hm
        have hmc : f.mimetype ∉ allowedDocMimeTypes := hm
        simp [generateFromDocument, hmc, modelCallCount, Event.isModelCall] at h
    · intro hm
      have hmc : f.mimetype ∉ allowedDocMimeTypes := hm
      refine ⟨[("error", docMimeRejectMsg f.mimetype)], ?_⟩
      simp [generateFromDocument, hmc, responses]
  · intro mr p f
    constructor
    · constructor
      · intro hm
        have hc : allowedAudioMimeTypes.contains f.mimetype = true :=
          List.elem_iff.mpr hm
        cases mr <;>
          (simp only [generateFromAudio, hc, Bool.not_true,
            Bool.false_eq_true, if_false]; rfl)
      · intro h
        by_contra hm
        have hmc : f.mimetype ∉ allowedAudioMimeTypes := hm
        simp [generateFromAudio, hmc, modelCallCount, Event.isModelCall] at h
    · intro hm
      have hmc : f.mimetype ∉ allowedAudioMimeTypes := hm
      refine ⟨[("error", audioMimeRejectMsg f.mimetype)], ?_⟩
      simp [generateFromAudio, hmc, responses]

/-- Witness for C5: a GIF upload is accepted and invokes the model once. -/
theorem C5_allowlists_match_spec_witness :
    modelCallCount
      (generateFromImage (Except.ok "t")
        { file := some ⟨"uploads/w5", "image/gif", "g.gif", []⟩,
          prompt := none }) = 1 :=
  (C5_allowlists_match_spec.2.2.2.1 (Except.ok "t") none
    ⟨"uploads/w5", "image/gif", "g.gif", []⟩).1.mp (by decide)

/-- C7: on every accepted file-endpoint request the payload sent to the
provider is a parts list with the text part strictly before the inline-data
part. -/
theorem C7_text_part_precedes_inline_part (mr : Except String String)
    (p : Option String) (f : UploadedFile) :
    (f.mimetype ∈ allowedImageMimeTypes →
      modelPayloads (generateFromImage mr { file := some f, prompt := p }) =
        [ModelPayload.withParts
          [Part.text (orDefault p imageDefaultPrompt),
           Part.inlineData (String.mk (base64Encode f.bytes)) f.mimetype]]) ∧
    (f.mimetype ∈ allowedDocMimeTypes →
      modelPayloads
          (generateFromDocument mr { file := some f, prompt := p }) =
        [ModelPayload.withParts
          [Part.text (orDefault p docDefaultPrompt),
           Part.inlineData (String.mk (base64Encode f.bytes)) f.mimetype]]) ∧
    (f.mimetype ∈ allowedAudioMimeTypes →
      modelPayloads (generateFromAudio mr { file := some f, prompt := p }) =
        [ModelPayload.withParts
          [Part.text (orDefault p audioDefaultPrompt),
           Part.inlineData (String.mk (base64Encode f.bytes)) f.mimetype]]) := by
  refine ⟨?_, ?_, ?_⟩
  · intro hm
    have hc : allowedImageMimeTypes.contains f.mimetype = true :=
      List.elem_iff.mpr hm
    cases mr <;>
      (simp only [generateFromImage, hc, Bool.not_true, Bool.false_eq_true,
        if_false]; rfl)
  · intro hm
    have hc : allowedDocMimeTypes.contains f.mimetype = true :=
      List.elem_iff.mpr hm
    cases mr <;>
      (simp only [generateFromDocument, hc, Bool.not_true,
        Bool.false_eq_true, if_false]; rfl)
  · intro hm
    have hc : allowedAudioMimeTypes.contains f.mimetype = true :=
      List.elem_iff.mpr hm
    cases mr <;>
      (simp only [generateFromAudio, hc, Bool.not_true, Bool.false_eq_true,
        if_false]; rfl)

/-- Witness for C7: a concrete accepted JPEG upload. -/
theorem C7_text_part_precedes_inline_part_witness :
    modelPayloads
      (generateFromImage (Except.ok "t")
        { file := some ⟨"uploads/w7", "image/jpeg", "p.jpg", []⟩,
          prompt := some "hi" }) =
      [ModelPayload.withParts
        [Part.text (orDefault (some "hi") imageDefaultPrompt),
         Part.inlineData (String.mk (base64Encode ([] : List Nat)))
           "image/jpeg"]] :=
  (C7_text_part_precedes_inline_part (Except.ok "t") (some "hi")
    ⟨"uploads/w7", "image/jpeg", "p.jpg", []⟩).1 (by decide)

/-- C8: the default instruction strings are exactly those the spec names,
and an accepted request without a prompt field sends the endpoint default
as the text part. -/
theorem C8_default_prompts (mr : Except String String) (f : UploadedFile) :
    imageDefaultPrompt = "Describe the image in detail." ∧
    docDefaultPrompt = "Analyze this document and summarize its key points:" ∧
    audioDefaultPrompt = "Transcribe the following audio:" ∧
    (f.mimetype ∈ allowedImageMimeTypes →
      modelPayloads
          (generateFromImage mr { file := some f, prompt := none }) =
        [ModelPayload.withParts
          [Part.text imageDefaultPrompt,
           Part.inlineData (String.mk (base64Encode f.bytes)) f.mimetype]]) ∧
    (f.mimetype ∈ allowedDocMimeTypes →
      modelPayloads
          (generateFromDocument mr { file := some f, prompt := none }) =
        [ModelPayload.withParts
          [Part.text docDefaultPrompt,
           Part.inlineData (String.mk (base64Encode f.bytes)) f.mimetype]]) ∧
    (f.mimetype ∈ allowedAudioMimeTypes →
      modelPayloads
          (generateFromAudio mr { file := some f, prompt := none }) =
        [ModelPayload.withParts
          [Part.text audioDefaultPrompt,
           Part.inlineData (String.mk (base64Encode f.bytes)) f.mimetype]]) := by
  refine ⟨rfl, rfl, rfl, ?_, ?_, ?_⟩
  · intro hm
    have hc : allowedImageMimeTypes.contains f.mimetype = true :=
      List.elem_iff.mpr hm
    cases mr <;>
      (simp only [generateFromImage, hc, Bool.not_true, Bool.false_eq_true,
        if_false]; rfl)
  · intro hm
    have hc : allowedDocMimeTypes.contains f.mimetype = true :=
      List.elem_iff.mpr hm
    cases mr <;>
      (simp only [generateFromDocument, hc, Bool.not_true,
        Bool.false_eq_true, if_false]; rfl)
  · intro hm
    have hc : allowedAudioMimeTypes.contains f.mimetype = true :=
      List.elem_iff.mpr hm
    cases mr <;>
      (simp only [generateFromAudio, hc, Bool.not_true, Bool.false_eq_true,
        if_false]; rfl)

/-- Witness for C8: a concrete accepted WAV upload without a prompt. -/
theorem C8_default_prompts_witness :
    modelPayloads
      (generateFromAudio (Except.ok "t")
        { file := some ⟨"uploads/w8", "audio/wav", "a.wav", []⟩,
          prompt := none }) =
      [ModelPayload.withParts
        [Part.text audioDefaultPrompt,
         Part.inlineData (String.mk (base64Encode ([] : List Nat)))
           "audio/wav"]] :=
  (C8_default_prompts (Except.ok "t")
    ⟨"uploads/w8", "audio/wav", "a.wav", []⟩).2.2.2.2.2 (by decide)

/-- C6 counterexample: a /generate-from-image request that supplies the
prompt field with the empty string passes validation, yet the text part sent
to the provider is the endpoint default, not the supplied string. -/
theorem C6_empty_prompt_not_forwarded :
    modelPayloads
      (generateFromImage (Except.ok "ok")
        { file := some ⟨"uploads/img1", "image/png", "cat.png", []⟩,
          prompt := some "" }) =
      [ModelPayload.withParts
        [Part.text imageDefaultPrompt, Part.inlineData "" "image/png"]] ∧
    Part.text "" ∉
      [Part.text imageDefaultPrompt, Part.inlineData "" "image/png"] := by
  exact ⟨rfl, by decide⟩

/-- C6 amended: a /generate-from-image request that supplies a non-empty
prompt and passes validation sends exactly that string as the text part. -/
theorem C6_custom_prompt_roundtrip (mr : Except String String)
    (f : UploadedFile) (p : String)
    (hm : f.mimetype ∈ allowedImageMimeTypes) (hp : p ≠ "") :
    modelPayloads (generateFromImage mr { file := some f, prompt := some p }) =
      [ModelPayload.withParts [Part.text p, fileToGenerativePart f]] := by
  have hc : allowedImageMimeTypes.contains f.mimetype = true :=
    List.elem_iff.mpr hm
  have hps : (p == "") = false := by simp [hp]
  cases mr <;>
    (simp only [generateFromImage, hc, Bool.not_true, Bool.false_eq_true,
      if_false, orDefault, hps]; rfl)

/-- Witness for the amended C6 at a concrete custom prompt. -/
theorem C6_custom_prompt_roundtrip_witness :
    modelPayloads
      (generateFromImage (Except.ok "ok")
        { file := some ⟨"uploads/img3", "image/jpeg", "dog.jpg", []⟩,
          prompt := some "What breed is this dog?" }) =
      [ModelPayload.withParts
        [Part.text "What breed is this dog?",
         fileToGenerativePart ⟨"uploads/img3", "image/jpeg", "dog.jpg", []⟩]] :=
  C6_custom_prompt_roundtrip (Except.ok "ok")
    ⟨"uploads/img3", "image/jpeg", "dog.jpg", []⟩ "What breed is this dog?"
    (by decide) (by decide)

/-- C3 counterexample: the rejection message of the image endpoint embeds
the rejected MIME type but does not contain the allow-list entries
themselves; the allow-list member image/jpeg never occurs in it. -/
theorem C3_reject_message_lacks_allowlist :
    responses
      (generateFromImage (Except.ok "ok")
        { file := some ⟨"uploads/img2", "text/html", "page.html", []⟩,
          prompt := none }) =
      [(400, [("error", imageMimeRejectMsg "text/html")])] ∧
    "image/jpeg" ∈ allowedImageMimeTypes ∧
    strContains (imageMimeRejectMsg "text/html") "image/jpeg" = false := by
  exact ⟨rfl, by decide, by decide⟩

/-- C3 amended: a disallowed MIME type draws, on every file endpoint, the
trace consisting of exactly the deletion of the staged file followed by the
400 response, so the file is deleted before the response is issued and is
never read; the error message embeds the rejected MIME type followed by a
fixed human-readable enumeration of the allowed formats. -/
theorem C3_mime_rejection_behavior (mr : Except String String)
    (p : Option String) (f : UploadedFile) :
    imageMimeRejectMsg f.mimetype =
      "Tipe file " ++ f.mimetype ++
        " tidak didukung. Hanya JPEG, PNG, GIF, WebP yang diizinkan untuk gambar." ∧
    docMimeRejectMsg f.mimetype =
      "Tipe file " ++ f.mimetype ++
        " tidak didukung. Dokumen yang diizinkan: PDF, TXT, DOCX, XLSX, PPTX." ∧
    audioMimeRejectMsg f.mimetype =
      "Tipe file " ++ f.mimetype ++
        " tidak didukung. Hanya MP3, WAV, M4A yang diizinkan untuk audio." ∧
    (f.mimetype ∉ allowedImageMimeTypes →
      generateFromImage mr { file := some f, prompt := p } =
        [Event.unlink f.path,
         Event.respond 400 [("error", imageMimeRejectMsg f.mimetype)]]) ∧
    (f.mimetype ∉ allowedDocMimeTypes →
      generateFromDocument mr { file := some f, prompt := p } =
        [Event.unlink f.path,
         Event.respond 400 [("error", docMimeRejectMsg f.mimetype)]]) ∧
    (f.mimetype ∉ allowedAudioMimeTypes →
      generateFromAudio mr { file := some f, prompt := p } =
        [Event.unlink f.path,
         Event.respond 400 [("error", audioMimeRejectMsg f.mimetype)]]) := by
  refine ⟨rfl, rfl, rfl, ?_, ?_, ?_⟩
  · intro hm
    simp [generateFromImage, hm]
  · intro hm
    simp [generateFromDocument, hm]
  · intro hm
    simp [generateFromAudio, hm]

/-- Witness for the amended C3: a text/html upload on the image endpoint. -/
theorem C3_mime_rejection_behavior_witness :
    generateFromImage (Except.ok "ok")
      { file := some ⟨"uploads/img2", "text/html", "page.html", []⟩,
        prompt := none } =
      [Event.unlink "uploads/img2",
       Event.respond 400 [("error", imageMimeRejectMsg "text/html")]] :=
  (C3_mime_rejection_behavior (Except.ok "ok") none
    ⟨"uploads/img2", "text/html", "page.html", []⟩).2.2.2.1 (by decide)

/-- C1 evidence: on every file endpoint, an accepted upload is never
deleted.  At a concrete accepted request on each endpoint the trace
contains no unlink event, whether the model invocation succeeds or throws,
even though a response is sent; the staged file survives the request. -/
theorem C1_staged_file_never_deleted :
    deletedPaths
      (generateFromImage (Except.ok "a cat")
        { file := some ⟨"uploads/abc123", "image/png", "cat.png", []⟩,
          prompt := none }) = [] ∧
    responses
      (generateFromImage (Except.ok "a cat")
        { file := some ⟨"uploads/abc123", "image/png", "cat.png", []⟩,
          prompt := none }) = [(200, [("output", "a cat")])] ∧
    deletedPaths
      (generateFromImage (Except.error "boom")
        { file := some ⟨"uploads/abc123", "image/png", "cat.png", []⟩,
          prompt := none }) = [] ∧
    deletedPaths
      (generateFromDocument (Except.ok "summary")
        { file := some ⟨"uploads/doc1", "application/pdf", "r.pdf", []⟩,
          prompt := none }) = [] ∧
    deletedPaths
      (generateFromDocument (Except.error "boom")
        { file := some ⟨"uploads/doc1", "application/pdf", "r.pdf", []⟩,
          prompt := none }) = [] ∧
    deletedPaths
      (generateFromAudio (Except.ok "words")
        { file := some ⟨"uploads/aud1", "audio/mpeg", "s.mp3", []⟩,
          prompt := none }) = [] ∧
    deletedPaths
      (generateFromAudio (Except.error "boom")
        { file := some ⟨"uploads/aud1", "audio/mpeg", "s.mp3", []⟩,
          prompt := none }) = [] := by
  exact ⟨rfl, rfl, rfl, rfl, rfl, rfl, rfl⟩

end GeminiServer
